import Mathlib

/-!
Verification of the scoring engine of the ACME model-evaluation CLI.

The Python sources under `src/acmecli` are embedded shallowly:
pure metric functions become Lean functions over `ℚ` (Python floats are
modelled by rationals), wall-clock measurements become explicit `ℕ`
parameters (the raw measured milliseconds), Python `None` / unconvertible
values become `Option`, and exceptions become `Except`.
-/

/-- Bool test that `pat` occurs at the head of `s` (character-wise). -/
def leadsWith : List Char → List Char → Bool
  | [], _ => true
  | _ :: _, [] => false
  | p :: ps, c :: cs => (p == c) && leadsWith ps cs

/-- Bool test that `pat` occurs somewhere in `s`, as Python `pat in s`. -/
def hasSub (pat : List Char) : List Char → Bool
  | [] => pat.isEmpty
  | c :: cs => leadsWith pat (c :: cs) || hasSub pat cs

/-- Python `s.lower()` restricted to the ASCII case used by the sources. -/
def strLower (s : String) : String := ⟨s.data.map Char.toLower⟩

/-- Python substring containment `pat in s`. -/
def strContains (s pat : String) : Bool := hasSub pat.data s.data

/-- `repo_scan._latency`: elapsed milliseconds with a floor of 1.
The raw measured value is passed in explicitly. -/
def _latency (elapsed_ms : ℕ) : ℕ := max 1 elapsed_ms

/-- `repo_scan._clamp`: clamp a value into [0, 1]. -/
def _clamp (x : ℚ) : ℚ := max 0 (min 1 x)

/-- `scoring.clamp01`: clamp value to [0,1] (textually identical to `_clamp`). -/
def clamp01 (x : ℚ) : ℚ := max 0 (min 1 x)

/-- `repo_scan.size_score`: `None` or non-positive sizes score 1.0, otherwise
the decay curve `1/(1 + total_bytes/400_000_000)`, clamped.  `none` models
Python `None`. -/
def size_score (total_bytes : Option ℤ) (e : ℕ) : ℚ × ℕ :=
  match total_bytes with
  | none => (1, _latency e)
  | some b =>
    if b ≤ 0 then (1, _latency e)
    else (_clamp (1 / (1 + (b : ℚ) / 400000000)), _latency e)

/-- `repo_scan.license_score`: case-insensitive substring matching; empty text
scores 0.5; apache/mit/lgpl score 1.0; other gpl scores 0.0; else 0.5. -/
def license_score (license_text : String) (e : ℕ) : ℚ × ℕ :=
  if license_text = r"" then (1/2, _latency e)
  else
    let text := strLower license_text
    if strContains text r"apache" then (1, _latency e)
    else if strContains text r"mit" then (1, _latency e)
    else if strContains text r"lgpl" then (1, _latency e)
    else if strContains text r"gpl" then (0, _latency e)
    else (1/2, _latency e)

/-- `repo_scan.bus_factor_score`: `none` models Python `None` or a value
`int()` cannot convert (both return 0.0); otherwise the piecewise rule of the
source: ≤0 ↦ 0.0, 1 ↦ 0.2, ≥10 ↦ 1.0, 2..9 ↦ clamp(c/10). -/
def bus_factor_score (contributors : Option ℤ) (e : ℕ) : ℚ × ℕ :=
  match contributors with
  | none => (0, _latency e)
  | some c =>
    if c ≤ 0 then (0, _latency e)
    else if c = 1 then (1/5, _latency e)
    else if 10 ≤ c then (1, _latency e)
    else (_clamp ((c : ℚ) / 10), _latency e)

/-- Python `float(v)` under try/except inside the metric loops: an
unconvertible value (modelled `none`) contributes 0.0. -/
def floatOr0 (v : Option ℚ) : ℚ := v.getD 0

/-- `repo_scan.rampup_score`: average of the five documentation signals,
bad values contributing 0, clamped. -/
def rampup_score (readme quickstart tutorials api_docs reproducibility : Option ℚ)
    (e : ℕ) : ℚ × ℕ :=
  let total := floatOr0 readme + floatOr0 quickstart + floatOr0 tutorials +
    floatOr0 api_docs + floatOr0 reproducibility
  (_clamp (total / 5), _latency e)

/-- `repo_scan.dataset_and_code_score`: 0.5 credit for each of the two flags. -/
def dataset_and_code_score (dataset_present code_present : Bool) (e : ℕ) : ℚ × ℕ :=
  let score : ℚ := (if dataset_present then 1/2 else 0) + (if code_present then 1/2 else 0)
  (_clamp score, _latency e)

/-- `repo_scan.dataset_quality_score`: average of the four dataset signals,
bad values contributing 0, clamped. -/
def dataset_quality_score (source license splits ethics : Option ℚ) (e : ℕ) : ℚ × ℕ :=
  let total := floatOr0 source + floatOr0 license + floatOr0 splits + floatOr0 ethics
  (_clamp (total / 4), _latency e)

/-- Python `int(v)` under try/except: an unconvertible value becomes 0. -/
def intOr0 (v : Option ℤ) : ℤ := v.getD 0

/-- `repo_scan.code_quality_score`: start from 1.0 and subtract 0.3 for any
flake8 errors, 0.2 if imports are unsorted, 0.3 for any mypy errors; clamp. -/
def code_quality_score (flake8_errors : Option ℤ) (isort_sorted : Bool)
    (mypy_errors : Option ℤ) (e : ℕ) : ℚ × ℕ :=
  let f := intOr0 flake8_errors
  let m := intOr0 mypy_errors
  let s1 : ℚ := 1
  let s2 := if 0 < f then s1 - 3/10 else s1
  let s3 := if !isort_sorted then s2 - 1/5 else s2
  let s4 := if 0 < m then s3 - 3/10 else s3
  (_clamp s4, _latency e)

/-- `repo_scan.perf_claims_score`: 0.0 with neither flag, 1.0 with both,
0.5 with exactly one. -/
def perf_claims_score (benchmarks_present citations_present : Bool) (e : ℕ) : ℚ × ℕ :=
  if !benchmarks_present && !citations_present then (0, _latency e)
  else if benchmarks_present && citations_present then (1, _latency e)
  else (1/2, _latency e)

/-- `scoring.DEFAULT_WEIGHTS`, in the source dict order. -/
def DEFAULT_WEIGHTS : List (String × ℚ) :=
  [(r"size", 5/100), (r"license", 20/100), (r"ramp_up_time", 15/100),
   (r"bus_factor", 10/100), (r"dataset_and_code", 20/100),
   (r"dataset_quality", 5/100), (r"code_quality", 15/100),
   (r"performance_claims", 10/100)]

/-- Lookup into `DEFAULT_WEIGHTS` (Python dict access by key). -/
def weightOf (k : String) : ℚ :=
  (((DEFAULT_WEIGHTS.find? (fun p => p.1 == k)).map (fun p => p.2)).getD 0)

/-- The evaluation context dict consumed by `scoring.compute_all_scores`,
with its keys as fields.  `contributors`, `flake8_errors` and `mypy_errors`
are `Option ℤ` because the metric functions accept `None`/unconvertible
values there; the `lat_*` fields model the optional `ctx["latencies"]`
entries for the eight latency keys. -/
structure Context where
  total_bytes : ℤ
  license_text : String
  docs_readme : ℚ
  docs_quickstart : ℚ
  docs_tutorials : ℚ
  docs_api_docs : ℚ
  docs_reproducibility : ℚ
  contributors : Option ℤ
  dataset_present : Bool
  code_present : Bool
  dd_source : ℚ
  dd_license : ℚ
  dd_splits : ℚ
  dd_ethics : ℚ
  flake8_errors : Option ℤ
  isort_sorted : Bool
  mypy_errors : Option ℤ
  perf_benchmarks : Bool
  perf_citations : Bool
  lat_size : Option ℤ
  lat_license : Option ℤ
  lat_ramp : Option ℤ
  lat_bus : Option ℤ
  lat_dac : Option ℤ
  lat_dq : Option ℤ
  lat_cq : Option ℤ
  lat_pc : Option ℤ

/-- The raw wall-clock millisecond measurements taken inside one
`compute_all_scores` call: one per metric (fed to `_latency`) and the
overall elapsed time `agg` of the aggregation call itself. -/
structure Elapsed where
  size : ℕ
  license : ℕ
  ramp : ℕ
  bus : ℕ
  dac : ℕ
  dq : ℕ
  cq : ℕ
  pc : ℕ
  agg : ℕ

/-- One merged latency: `int(max(1, int(latencies_ctx.get(k, default))))` —
the context-supplied value is preferred over the locally measured default. -/
def mergeLatency (ctxVal : Option ℤ) (dflt : ℕ) : ℕ :=
  match ctxVal with
  | none => max 1 dflt
  | some v => (max 1 v).toNat

/-- The result dict of `compute_all_scores` (score and latency fields).
The `size_score` device map (real-valued `math.pow` curves from
`_device_size_scores`) is not modelled; no verified property refers to it. -/
structure ScoreResult where
  net_score : ℚ
  net_score_latency : ℕ
  ramp_up_time : ℚ
  ramp_up_time_latency : ℕ
  bus_factor : ℚ
  bus_factor_latency : ℕ
  performance_claims : ℚ
  performance_claims_latency : ℕ
  license : ℚ
  license_latency : ℕ
  size_score_latency : ℕ
  dataset_and_code_score : ℚ
  dataset_and_code_score_latency : ℕ
  dataset_quality : ℚ
  dataset_quality_latency : ℕ
  code_quality : ℚ
  code_quality_latency : ℕ

/-- `scoring.compute_all_scores`: run the eight metrics on the context,
clamp each score, merge latencies with preference for context-supplied
values, compute the weighted net score, and report the net latency as the
slowest metric latency plus the (floored) aggregation overhead. -/
def compute_all_scores (ctx : Context) (t : Elapsed) : ScoreResult :=
  let sz := size_score (some ctx.total_bytes) t.size
  let lic := license_score ctx.license_text t.license
  let ramp := rampup_score (some ctx.docs_readme) (some ctx.docs_quickstart)
    (some ctx.docs_tutorials) (some ctx.docs_api_docs) (some ctx.docs_reproducibility) t.ramp
  let bus := bus_factor_score ctx.contributors t.bus
  let dac := dataset_and_code_score ctx.dataset_present ctx.code_present t.dac
  let dq := dataset_quality_score (some ctx.dd_source) (some ctx.dd_license)
    (some ctx.dd_splits) (some ctx.dd_ethics) t.dq
  let cq := code_quality_score ctx.flake8_errors ctx.isort_sorted ctx.mypy_errors t.cq
  let pc := perf_claims_score ctx.perf_benchmarks ctx.perf_citations t.pc
  let s_size := clamp01 sz.1
  let s_lic := clamp01 lic.1
  let s_ramp := clamp01 ramp.1
  let s_bus := clamp01 bus.1
  let s_dac := clamp01 dac.1
  let s_dq := clamp01 dq.1
  let s_cq := clamp01 cq.1
  let s_pc := clamp01 pc.1
  let l_size := mergeLatency ctx.lat_size sz.2
  let l_lic := mergeLatency ctx.lat_license lic.2
  let l_ramp := mergeLatency ctx.lat_ramp ramp.2
  let l_bus := mergeLatency ctx.lat_bus bus.2
  let l_dac := mergeLatency ctx.lat_dac dac.2
  let l_dq := mergeLatency ctx.lat_dq dq.2
  let l_cq := mergeLatency ctx.lat_cq cq.2
  let l_pc := mergeLatency ctx.lat_pc pc.2
  let net := s_size * weightOf r"size" + s_lic * weightOf r"license" +
    s_ramp * weightOf r"ramp_up_time" + s_bus * weightOf r"bus_factor" +
    s_dac * weightOf r"dataset_and_code" + s_dq * weightOf r"dataset_quality" +
    s_cq * weightOf r"code_quality" + s_pc * weightOf r"performance_claims"
  let max_metric := max (max (max (max (max (max (max l_size l_lic) l_ramp) l_bus) l_dac) l_dq) l_cq) l_pc
  let overhead := max 1 t.agg
  let net_latency := max_metric + overhead
  { net_score := clamp01 net
    net_score_latency := net_latency
    ramp_up_time := s_ramp
    ramp_up_time_latency := l_ramp
    bus_factor := s_bus
    bus_factor_latency := l_bus
    performance_claims := s_pc
    performance_claims_latency := l_pc
    license := s_lic
    license_latency := l_lic
    size_score_latency := l_size
    dataset_and_code_score := s_dac
    dataset_and_code_score_latency := l_dac
    dataset_quality := s_dq
    dataset_quality_latency := l_dq
    code_quality := s_cq
    code_quality_latency := l_cq }

/-- `urls.Category`. -/
inductive Category where
  | MODEL
  | DATASET
  | CODE
deriving DecidableEq

/-- `urls.classify`: heuristic substring classification of a URL. -/
def classify (url : String) : Category :=
  let u := strLower url
  if strContains u r"huggingface.co/datasets" then Category.DATASET
  else if strContains u r"huggingface.co" then Category.MODEL
  else Category.CODE

/-- Outcome of `main.process_model` for one model URL: success,
`ModelLookupError`, or any other exception. -/
inductive EvalOutcome where
  | success
  | lookupError
  | processingError
deriving DecidableEq

/-- The batch-level exit-status policy of `main.main` (without fail-fast,
which only changes how early the loop stops, not the zero/non-zero policy):
exit 1 on an empty URL list; exit 1 when no URL classifies as MODEL but
invalid ones exist; otherwise exit 1 iff an invalid URL survives the
DATASET/CODE category filter or some model evaluation failed, else exit 0.
Invalid entries are modelled as (url, category) pairs: the source stores the
reason string, which for the total `classify` always has the form
`unsupported category: <name>`, so the filter on the reason text is the
filter on the category. -/
def main_exit (urls : List String) (ev : String → EvalOutcome) : ℕ :=
  if urls.isEmpty then 1
  else
    let models := urls.filter (fun u => decide (classify u = Category.MODEL))
    let invalid := (urls.filter (fun u => decide (¬ classify u = Category.MODEL))).map
      (fun u => (u, classify u))
    if models.isEmpty && !invalid.isEmpty then 1
    else
      let failures := models.filter (fun u => decide (¬ ev u = EvalOutcome.success))
      let actual_errors := invalid.filter
        (fun p => decide (¬ (p.2 = Category.DATASET ∨ p.2 = Category.CODE)))
      if !actual_errors.isEmpty || !failures.isEmpty then 1 else 0

/-- `llm_analysis.hasAny`-style keyword test: `any(word in text for word in ws)`. -/
def hasAnyKeyword (text : String) (ws : List String) : Bool :=
  ws.any (fun w => strContains text w)

/-- The code-fence character (ASCII 96). -/
def fenceChar : Char := Char.ofNat 96

/-- Python `readme_content.count(t3)` for the three-character code-fence
delimiter: non-overlapping occurrences, scanning left to right. -/
def countFence3 : List Char → ℕ
  | c1 :: c2 :: c3 :: rest =>
      if c1 = fenceChar ∧ c2 = fenceChar ∧ c3 = fenceChar then 1 + countFence3 rest
      else countFence3 (c2 :: c3 :: rest)
  | _ => 0

/-- The dict returned by `llm_analysis._analyze_readme_locally`.
`code_blocks_count` is `none` on the empty-README early return, where the
source omits that key. -/
structure LocalAnalysis where
  documentation_quality : ℚ
  ease_of_use : ℚ
  examples_present : Bool
  installation_instructions : Bool
  usage_examples : Bool
  code_blocks_count : Option ℕ
deriving DecidableEq

/-- `llm_analysis._analyze_readme_locally`: deterministic keyword and
code-fence-density heuristics over the README text. -/
def _analyze_readme_locally (readme_content model_name : String) : LocalAnalysis :=
  if readme_content = r"" then
    { documentation_quality := 0
      ease_of_use := 0
      examples_present := false
      installation_instructions := false
      usage_examples := false
      code_blocks_count := none }
  else
    let content_lower := strLower readme_content
    let has_installation := hasAnyKeyword content_lower [r"install", r"pip", r"conda", r"setup"]
    let has_usage := hasAnyKeyword content_lower
      [r"usage", r"example", r"how to", r"getting started"]
    let has_api_docs := hasAnyKeyword content_lower
      [r"api", r"reference", r"documentation", r"docs"]
    let has_examples := hasAnyKeyword content_lower [r"example", r"sample", r"demo", r"tutorial"]
    let code_blocks := countFence3 readme_content.data
    let quality_score : ℚ := (if has_installation then 1/4 else 0) +
      (if has_usage then 1/4 else 0) + (if has_api_docs then 1/4 else 0) +
      (if 2 ≤ code_blocks then 1/4 else 0)
    let ease_score := min 1 ((readme_content.length : ℚ) / 1000 * (1/2) + quality_score * (1/2))
    { documentation_quality := quality_score
      ease_of_use := ease_score
      examples_present := has_examples
      installation_instructions := has_installation
      usage_examples := has_usage
      code_blocks_count := some (code_blocks / 2) }

/-- `llm_analysis.analyze_readme_with_llm`.  The configured provider is
modelled as an optional fallible function (`none` = not configured, an
`Except.error` result = the provider call raised); `deterministic` and
`strict` model the DETERMINISTIC and LLM_STRICT environment flags; a raised
exception is the `Except.error` of the result.  On provider success the
source merges the provider dict with the local analysis, the local keys
winning (`result.update(local)`), so the result is the provider payload
alongside the full local analysis. -/
def analyze_readme_with_llm {π : Type}
    (provider : Option (String → String → Except String π))
    (deterministic strict : Bool) (readme_content model_name : String) :
    Except String (Option π × LocalAnalysis) :=
  match provider, deterministic with
  | some p, false =>
    match p model_name readme_content with
    | Except.ok r => Except.ok (some r, _analyze_readme_locally readme_content model_name)
    | Except.error err =>
      if strict then Except.error err
      else Except.ok (none, _analyze_readme_locally readme_content model_name)
  | _, _ =>
    if strict then Except.error (r"LLM provider not configured and LLM_STRICT is enabled")
    else Except.ok (none, _analyze_readme_locally readme_content model_name)

lemma clamp01_nonneg (x : ℚ) : 0 ≤ clamp01 x := le_max_left 0 _

lemma clamp01_le_one (x : ℚ) : clamp01 x ≤ 1 :=
  max_le (by norm_num) (min_le_left 1 x)

lemma clamp01_eq_self {x : ℚ} (h0 : 0 ≤ x) (h1 : x ≤ 1) : clamp01 x = x := by
  simp [clamp01, max_eq_right, min_eq_right, h0, h1]

lemma _clamp_nonneg (x : ℚ) : 0 ≤ _clamp x := le_max_left 0 _

lemma _clamp_le_one (x : ℚ) : _clamp x ≤ 1 :=
  max_le (by norm_num) (min_le_left 1 x)

lemma one_le_latency (e : ℕ) : 1 ≤ _latency e := le_max_left 1 e

/-- C5: the license metric matches case-insensitively against the allow-list
and deny-list: Apache-2.0 scores 1.0, GPL-3.0 scores 0.0, and the empty
string scores 0.5. -/
theorem license_allow_deny_values :
    (license_score (r"Apache-2.0") 1).1 = 1 ∧
    (license_score (r"GPL-3.0") 1).1 = 0 ∧
    (license_score (r"") 1).1 = 1/2 := by
  refine ⟨rfl, rfl, rfl⟩

/-- C10: any license text whose lowercase form contains the substring lgpl
scores 1.0 — the allow-list checks (apache, mit, lgpl) all run before the
gpl deny-list check, so the deny-list substring gpl inside lgpl never
fires. -/
theorem license_lgpl_scores_one (s : String) (e : ℕ)
    (h : strContains (strLower s) (r"lgpl") = true) :
    (license_score s e).1 = 1 := by
  simp only [license_score]
  split_ifs with h0 h1 h2
  · rw [h0] at h
    exact absurd h (by decide)
  · rfl
  · rfl
  · rfl

theorem license_lgpl_scores_one_witness :
    strContains (strLower (r"LGPL-2.1")) (r"lgpl") = true ∧
    (license_score (r"LGPL-2.1") 1).1 = 1 :=
  ⟨by decide, license_lgpl_scores_one (r"LGPL-2.1") 1 (by decide)⟩

/-- C4 counterexample: at one contributor the code returns 0.2, not the
claimed saturation value clamp01(1/(1+5)) = 1/6. -/
theorem bus_factor_not_saturation_formula :
    (bus_factor_score (some 1) 1).1 ≠ clamp01 ((1 : ℚ) / ((1 : ℚ) + 5)) := by
  have h1 : (bus_factor_score (some 1) 1).1 = 1/5 := rfl
  have h2 : clamp01 ((1 : ℚ) / ((1 : ℚ) + 5)) = 1/6 := by
    rw [clamp01_eq_self (by norm_num) (by norm_num)]
    norm_num
  rw [h1, h2]
  norm_num

/-- C4 amended: the bus-factor metric is the piecewise rule of the source:
invalid (None/unconvertible) or non-positive counts score 0.0, exactly one
contributor scores 0.2, counts from 2 to 9 score clamp(c/10), and counts of
10 or more score 1.0. -/
theorem bus_factor_piecewise (c : ℤ) (e : ℕ) :
    (bus_factor_score none e).1 = 0 ∧
    (c ≤ 0 → (bus_factor_score (some c) e).1 = 0) ∧
    (c = 1 → (bus_factor_score (some c) e).1 = 1/5) ∧
    (2 ≤ c → c ≤ 9 → (bus_factor_score (some c) e).1 = _clamp ((c : ℚ) / 10)) ∧
    (10 ≤ c → (bus_factor_score (some c) e).1 = 1) := by
  refine ⟨rfl, ?_, ?_, ?_, ?_⟩
  · intro h
    simp [bus_factor_score, h]
  · intro h
    subst h
    rfl
  · intro h2 h9
    have hn0 : ¬ c ≤ 0 := by omega
    have hn1 : ¬ c = 1 := by omega
    have hn10 : ¬ 10 ≤ c := by omega
    simp [bus_factor_score, hn0, hn1, hn10]
  · intro h
    have hn0 : ¬ c ≤ 0 := by omega
    have hn1 : ¬ c = 1 := by omega
    simp [bus_factor_score, hn0, hn1, h]

theorem bus_factor_piecewise_witness :
    (bus_factor_score (some 5) 1).1 = _clamp ((5 : ℚ) / 10) ∧
    (bus_factor_score (some 12) 1).1 = 1 :=
  ⟨(bus_factor_piecewise 5 1).2.2.2.1 (by norm_num) (by norm_num),
   (bus_factor_piecewise 12 1).2.2.2.2 (by norm_num)⟩

/-- C3: at the input of the repository's own edge-case test
(total_bytes = 10), the size metric returns the decay value
40000000/40000001, which is neither 0.0 nor the claimed linear-ramp
behaviour; the source function accepts no L/U bounds at all. -/
theorem size_score_at_test_input :
    (size_score (some 10) 1).1 = 40000000 / 40000001 ∧
    (size_score (some 10) 1).1 ≠ 0 := by
  have h : (size_score (some 10) 1).1 = _clamp (1 / (1 + (10 : ℚ) / 400000000)) := rfl
  have hv : (1 : ℚ) / (1 + (10 : ℚ) / 400000000) = 40000000 / 40000001 := by norm_num
  have hc : _clamp ((40000000 : ℚ) / 40000001) = 40000000 / 40000001 := by
    simp [_clamp, max_eq_right, min_eq_right]
    norm_num
  constructor
  · rw [h, hv, hc]
  · rw [h, hv, hc]
    norm_num

/-- C6: every metric function is total over its (embedded) input domain,
including the `none` cases that model Python None / unconvertible values,
and always returns a score in [0,1] together with a latency of at least
1 ms. -/
theorem metrics_total_and_in_range :
    (∀ tb e, 0 ≤ (size_score tb e).1 ∧ (size_score tb e).1 ≤ 1 ∧
      1 ≤ (size_score tb e).2) ∧
    (∀ s e, 0 ≤ (license_score s e).1 ∧ (license_score s e).1 ≤ 1 ∧
      1 ≤ (license_score s e).2) ∧
    (∀ a b c d f e, 0 ≤ (rampup_score a b c d f e).1 ∧
      (rampup_score a b c d f e).1 ≤ 1 ∧ 1 ≤ (rampup_score a b c d f e).2) ∧
    (∀ c e, 0 ≤ (bus_factor_score c e).1 ∧ (bus_factor_score c e).1 ≤ 1 ∧
      1 ≤ (bus_factor_score c e).2) ∧
    (∀ a b e, 0 ≤ (dataset_and_code_score a b e).1 ∧
      (dataset_and_code_score a b e).1 ≤ 1 ∧ 1 ≤ (dataset_and_code_score a b e).2) ∧
    (∀ a b c d e, 0 ≤ (dataset_quality_score a b c d e).1 ∧
      (dataset_quality_score a b c d e).1 ≤ 1 ∧ 1 ≤ (dataset_quality_score a b c d e).2) ∧
    (∀ a b c e, 0 ≤ (code_quality_score a b c e).1 ∧
      (code_quality_score a b c e).1 ≤ 1 ∧ 1 ≤ (code_quality_score a b c e).2) ∧
    (∀ a b e, 0 ≤ (perf_claims_score a b e).1 ∧ (perf_claims_score a b e).1 ≤ 1 ∧
      1 ≤ (perf_claims_score a b e).2) := by
  refine ⟨?_, ?_, ?_, ?_, ?_, ?_, ?_, ?_⟩
  · intro tb e
    cases tb with
    | none => exact ⟨by norm_num [size_score], by norm_num [size_score],
        one_le_latency e⟩
    | some b =>
      by_cases hb : b ≤ 0
      · simp only [size_score, if_pos hb]
        exact ⟨by norm_num, by norm_num, one_le_latency e⟩
      · simp only [size_score, if_neg hb]
        exact ⟨_clamp_nonneg _, _clamp_le_one _, one_le_latency e⟩
  · intro s e
    simp only [license_score]
    split_ifs <;>
      exact ⟨by norm_num, by norm_num, one_le_latency e⟩
  · intro a b c d f e
    exact ⟨_clamp_nonneg _, _clamp_le_one _, one_le_latency e⟩
  · intro c e
    cases c with
    | none =>
      exact ⟨by norm_num [bus_factor_score], by norm_num [bus_factor_score],
        one_le_latency e⟩
    | some v =>
      simp only [bus_factor_score]
      split_ifs
      · exact ⟨by norm_num, by norm_num, one_le_latency e⟩
      · exact ⟨by norm_num, by norm_num, one_le_latency e⟩
      · exact ⟨by norm_num, by norm_num, one_le_latency e⟩
      · exact ⟨_clamp_nonneg _, _clamp_le_one _, one_le_latency e⟩
  · intro a b e
    exact ⟨_clamp_nonneg _, _clamp_le_one _, one_le_latency e⟩
  · intro a b c d e
    exact ⟨_clamp_nonneg _, _clamp_le_one _, one_le_latency e⟩
  · intro a b c e
    exact ⟨_clamp_nonneg _, _clamp_le_one _, one_le_latency e⟩
  · intro a b e
    simp only [perf_claims_score]
    split_ifs <;>
      exact ⟨by norm_num, by norm_num, one_le_latency e⟩

lemma weightOf_size : weightOf (r"size") = 5/100 := rfl

lemma weightOf_license : weightOf (r"license") = 20/100 := rfl

lemma weightOf_ramp : weightOf (r"ramp_up_time") = 15/100 := rfl

lemma weightOf_bus : weightOf (r"bus_factor") = 10/100 := rfl

lemma weightOf_dac : weightOf (r"dataset_and_code") = 20/100 := rfl

lemma weightOf_dq : weightOf (r"dataset_quality") = 5/100 := rfl

lemma weightOf_cq : weightOf (r"code_quality") = 15/100 := rfl

lemma weightOf_pc : weightOf (r"performance_claims") = 10/100 := rfl

/-- C1: the aggregator's net score is the weighted sum of the eight clamped
sub-scores with the fixed weight table (0.05, 0.20, 0.15, 0.10, 0.20, 0.05,
0.15, 0.10), the weights sum to 1.0, and consequently the net score lies
between the minimum and the maximum of the eight sub-scores. -/
theorem net_score_convex_combination (ctx : Context) (t : Elapsed) :
    (DEFAULT_WEIGHTS.map (fun p => p.2)).sum = 1 ∧
    (compute_all_scores ctx t).net_score =
      clamp01 ((size_score (some ctx.total_bytes) t.size).1) * (5/100) +
      clamp01 ((license_score ctx.license_text t.license).1) * (20/100) +
      clamp01 ((rampup_score (some ctx.docs_readme) (some ctx.docs_quickstart)
        (some ctx.docs_tutorials) (some ctx.docs_api_docs)
        (some ctx.docs_reproducibility) t.ramp).1) * (15/100) +
      clamp01 ((bus_factor_score ctx.contributors t.bus).1) * (10/100) +
      clamp01 ((dataset_and_code_score ctx.dataset_present ctx.code_present t.dac).1) * (20/100) +
      clamp01 ((dataset_quality_score (some ctx.dd_source) (some ctx.dd_license)
        (some ctx.dd_splits) (some ctx.dd_ethics) t.dq).1) * (5/100) +
      clamp01 ((code_quality_score ctx.flake8_errors ctx.isort_sorted ctx.mypy_errors t.cq).1) * (15/100) +
      clamp01 ((perf_claims_score ctx.perf_benchmarks ctx.perf_citations t.pc).1) * (10/100) ∧
    min (clamp01 ((size_score (some ctx.total_bytes) t.size).1))
      (min (clamp01 ((license_score ctx.license_text t.license).1))
      (min (clamp01 ((rampup_score (some ctx.docs_readme) (some ctx.docs_quickstart)
        (some ctx.docs_tutorials) (some ctx.docs_api_docs)
        (some ctx.docs_reproducibility) t.ramp).1))
      (min (clamp01 ((bus_factor_score ctx.contributors t.bus).1))
      (min (clamp01 ((dataset_and_code_score ctx.dataset_present ctx.code_present t.dac).1))
      (min (clamp01 ((dataset_quality_score (some ctx.dd_source) (some ctx.dd_license)
        (some ctx.dd_splits) (some ctx.dd_ethics) t.dq).1))
      (min (clamp01 ((code_quality_score ctx.flake8_errors ctx.isort_sorted ctx.mypy_errors t.cq).1))
        (clamp01 ((perf_claims_score ctx.perf_benchmarks ctx.perf_citations t.pc).1)))))))) ≤
      (compute_all_scores ctx t).net_score ∧
    (compute_all_scores ctx t).net_score ≤
      max (clamp01 ((size_score (some ctx.total_bytes) t.size).1))
      (max (clamp01 ((license_score ctx.license_text t.license).1))
      (max (clamp01 ((rampup_score (some ctx.docs_readme) (some ctx.docs_quickstart)
        (some ctx.docs_tutorials) (some ctx.docs_api_docs)
        (some ctx.docs_reproducibility) t.ramp).1))
      (max (clamp01 ((bus_factor_score ctx.contributors t.bus).1))
      (max (clamp01 ((dataset_and_code_score ctx.dataset_present ctx.code_present t.dac).1))
      (max (clamp01 ((dataset_quality_score (some ctx.dd_source) (some ctx.dd_license)
        (some ctx.dd_splits) (some ctx.dd_ethics) t.dq).1))
      (max (clamp01 ((code_quality_score ctx.flake8_errors ctx.isort_sorted ctx.mypy_errors t.cq).1))
        (clamp01 ((perf_claims_score ctx.perf_benchmarks ctx.perf_citations t.pc).1)))))))) := by
  set s1 := clamp01 ((size_score (some ctx.total_bytes) t.size).1) with hs1
  set s2 := clamp01 ((license_score ctx.license_text t.license).1) with hs2
  set s3 := clamp01 ((rampup_score (some ctx.docs_readme) (some ctx.docs_quickstart)
    (some ctx.docs_tutorials) (some ctx.docs_api_docs)
    (some ctx.docs_reproducibility) t.ramp).1) with hs3
  set s4 := clamp01 ((bus_factor_score ctx.contributors t.bus).1) with hs4
  set s5 := clamp01 ((dataset_and_code_score ctx.dataset_present ctx.code_present t.dac).1) with hs5
  set s6 := clamp01 ((dataset_quality_score (some ctx.dd_source) (some ctx.dd_license)
    (some ctx.dd_splits) (some ctx.dd_ethics) t.dq).1) with hs6
  set s7 := clamp01 ((code_quality_score ctx.flake8_errors ctx.isort_sorted ctx.mypy_errors t.cq).1) with hs7
  set s8 := clamp01 ((perf_claims_score ctx.perf_benchmarks ctx.perf_citations t.pc).1) with hs8
  have key : (compute_all_scores ctx t).net_score =
      clamp01 (s1 * weightOf (r"size") + s2 * weightOf (r"license") +
        s3 * weightOf (r"ramp_up_time") + s4 * weightOf (r"bus_factor") +
        s5 * weightOf (r"dataset_and_code") + s6 * weightOf (r"dataset_quality") +
        s7 * weightOf (r"code_quality") + s8 * weightOf (r"performance_claims")) := by
    rw [hs1, hs2, hs3, hs4, hs5, hs6, hs7, hs8]
    rfl
  rw [weightOf_size, weightOf_license, weightOf_ramp, weightOf_bus, weightOf_dac,
    weightOf_dq, weightOf_cq, weightOf_pc] at key
  have b1a : 0 ≤ s1 := hs1 ▸ clamp01_nonneg _
  have b1b : s1 ≤ 1 := hs1 ▸ clamp01_le_one _
  have b2a : 0 ≤ s2 := hs2 ▸ clamp01_nonneg _
  have b2b : s2 ≤ 1 := hs2 ▸ clamp01_le_one _
  have b3a : 0 ≤ s3 := hs3 ▸ clamp01_nonneg _
  have b3b : s3 ≤ 1 := hs3 ▸ clamp01_le_one _
  have b4a : 0 ≤ s4 := hs4 ▸ clamp01_nonneg _
  have b4b : s4 ≤ 1 := hs4 ▸ clamp01_le_one _
  have b5a : 0 ≤ s5 := hs5 ▸ clamp01_nonneg _
  have b5b : s5 ≤ 1 := hs5 ▸ clamp01_le_one _
  have b6a : 0 ≤ s6 := hs6 ▸ clamp01_nonneg _
  have b6b : s6 ≤ 1 := hs6 ▸ clamp01_le_one _
  have b7a : 0 ≤ s7 := hs7 ▸ clamp01_nonneg _
  have b7b : s7 ≤ 1 := hs7 ▸ clamp01_le_one _
  have b8a : 0 ≤ s8 := hs8 ▸ clamp01_nonneg _
  have b8b : s8 ≤ 1 := hs8 ▸ clamp01_le_one _
  have hsum0 : 0 ≤ s1 * (5/100) + s2 * (20/100) + s3 * (15/100) + s4 * (10/100) +
      s5 * (20/100) + s6 * (5/100) + s7 * (15/100) + s8 * (10/100) := by
    linarith
  have hsum1 : s1 * (5/100) + s2 * (20/100) + s3 * (15/100) + s4 * (10/100) +
      s5 * (20/100) + s6 * (5/100) + s7 * (15/100) + s8 * (10/100) ≤ 1 := by
    linarith
  rw [clamp01_eq_self hsum0 hsum1] at key
  refine ⟨by norm_num [DEFAULT_WEIGHTS], key, ?_, ?_⟩
  · have m1 : min s1 (min s2 (min s3 (min s4 (min s5 (min s6 (min s7 s8)))))) ≤ s1 :=
      min_le_left _ _
    have m2 : min s1 (min s2 (min s3 (min s4 (min s5 (min s6 (min s7 s8)))))) ≤ s2 :=
      min_le_of_right_le (min_le_left _ _)
    have m3 : min s1 (min s2 (min s3 (min s4 (min s5 (min s6 (min s7 s8)))))) ≤ s3 :=
      min_le_of_right_le (min_le_of_right_le (min_le_left _ _))
    have m4 : min s1 (min s2 (min s3 (min s4 (min s5 (min s6 (min s7 s8)))))) ≤ s4 :=
      min_le_of_right_le (min_le_of_right_le (min_le_of_right_le (min_le_left _ _)))
    have m5 : min s1 (min s2 (min s3 (min s4 (min s5 (min s6 (min s7 s8)))))) ≤ s5 :=
      min_le_of_right_le (min_le_of_right_le (min_le_of_right_le
        (min_le_of_right_le (min_le_left _ _))))
    have m6 : min s1 (min s2 (min s3 (min s4 (min s5 (min s6 (min s7 s8)))))) ≤ s6 :=
      min_le_of_right_le (min_le_of_right_le (min_le_of_right_le
        (min_le_of_right_le (min_le_of_right_le (min_le_left _ _)))))
    have m7 : min s1 (min s2 (min s3 (min s4 (min s5 (min s6 (min s7 s8)))))) ≤ s7 :=
      min_le_of_right_le (min_le_of_right_le (min_le_of_right_le
        (min_le_of_right_le (min_le_of_right_le (min_le_of_right_le (min_le_left _ _))))))
    have m8 : min s1 (min s2 (min s3 (min s4 (min s5 (min s6 (min s7 s8)))))) ≤ s8 :=
      min_le_of_right_le (min_le_of_right_le (min_le_of_right_le
        (min_le_of_right_le (min_le_of_right_le (min_le_of_right_le (min_le_right _ _))))))
    rw [key]
    linarith
  · have m1 : s1 ≤ max s1 (max s2 (max s3 (max s4 (max s5 (max s6 (max s7 s8)))))) :=
      le_max_left _ _
    have m2 : s2 ≤ max s1 (max s2 (max s3 (max s4 (max s5 (max s6 (max s7 s8)))))) :=
      le_max_of_le_right (le_max_left _ _)
    have m3 : s3 ≤ max s1 (max s2 (max s3 (max s4 (max s5 (max s6 (max s7 s8)))))) :=
      le_max_of_le_right (le_max_of_le_right (le_max_left _ _))
    have m4 : s4 ≤ max s1 (max s2 (max s3 (max s4 (max s5 (max s6 (max s7 s8)))))) :=
      le_max_of_le_right (le_max_of_le_right (le_max_of_le_right (le_max_left _ _)))
    have m5 : s5 ≤ max s1 (max s2 (max s3 (max s4 (max s5 (max s6 (max s7 s8)))))) :=
      le_max_of_le_right (le_max_of_le_right (le_max_of_le_right
        (le_max_of_le_right (le_max_left _ _))))
    have m6 : s6 ≤ max s1 (max s2 (max s3 (max s4 (max s5 (max s6 (max s7 s8)))))) :=
      le_max_of_le_right (le_max_of_le_right (le_max_of_le_right
        (le_max_of_le_right (le_max_of_le_right (le_max_left _ _)))))
    have m7 : s7 ≤ max s1 (max s2 (max s3 (max s4 (max s5 (max s6 (max s7 s8)))))) :=
      le_max_of_le_right (le_max_of_le_right (le_max_of_le_right
        (le_max_of_le_right (le_max_of_le_right (le_max_of_le_right (le_max_left _ _))))))
    have m8 : s8 ≤ max s1 (max s2 (max s3 (max s4 (max s5 (max s6 (max s7 s8)))))) :=
      le_max_of_le_right (le_max_of_le_right (le_max_of_le_right
        (le_max_of_le_right (le_max_of_le_right (le_max_of_le_right (le_max_right _ _))))))
    rw [key]
    linarith

/-- The end-to-end scenario context of the spec: 50 MB model, MIT license,
all documentation signals maximal, 10 contributors, dataset and code
present, perfect dataset documentation, clean code checks, benchmarks and
citations present, no upstream latencies. -/
def c2_ctx : Context where
  total_bytes := 50000000
  license_text := r"MIT"
  docs_readme := 1
  docs_quickstart := 1
  docs_tutorials := 1
  docs_api_docs := 1
  docs_reproducibility := 1
  contributors := some 10
  dataset_present := true
  code_present := true
  dd_source := 1
  dd_license := 1
  dd_splits := 1
  dd_ethics := 1
  flake8_errors := some 0
  isort_sorted := true
  mypy_errors := some 0
  perf_benchmarks := true
  perf_citations := true
  lat_size := none
  lat_license := none
  lat_ramp := none
  lat_bus := none
  lat_dac := none
  lat_dq := none
  lat_cq := none
  lat_pc := none

/-- Unit raw timing measurements for concrete evaluations. -/
def unit_elapsed : Elapsed :=
  ⟨1, 1, 1, 1, 1, 1, 1, 1, 1⟩

lemma c2_size_sub_score : clamp01 ((size_score (some 50000000) 1).1) = 8/9 := by
  have h : (size_score (some 50000000) 1).1 =
      _clamp (1 / (1 + (50000000 : ℚ) / 400000000)) := rfl
  have hv : (1 : ℚ) / (1 + (50000000 : ℚ) / 400000000) = 8/9 := by norm_num
  rw [h, hv]
  have hc : _clamp ((8 : ℚ)/9) = 8/9 := by
    simp [_clamp, max_eq_right, min_eq_right]
    norm_num
  rw [hc]
  exact clamp01_eq_self (by norm_num) (by norm_num)

lemma c2_net_key : (compute_all_scores c2_ctx unit_elapsed).net_score =
    clamp01 (clamp01 ((size_score (some 50000000) 1).1) * weightOf (r"size") +
      clamp01 ((license_score (r"MIT") 1).1) * weightOf (r"license") +
      clamp01 ((rampup_score (some 1) (some 1) (some 1) (some 1) (some 1) 1).1) *
        weightOf (r"ramp_up_time") +
      clamp01 ((bus_factor_score (some 10) 1).1) * weightOf (r"bus_factor") +
      clamp01 ((dataset_and_code_score true true 1).1) * weightOf (r"dataset_and_code") +
      clamp01 ((dataset_quality_score (some 1) (some 1) (some 1) (some 1) 1).1) *
        weightOf (r"dataset_quality") +
      clamp01 ((code_quality_score (some 0) true (some 0) 1).1) * weightOf (r"code_quality") +
      clamp01 ((perf_claims_score true true 1).1) * weightOf (r"performance_claims")) := rfl

lemma c2_other_sub_scores :
    clamp01 ((license_score (r"MIT") 1).1) = 1 ∧
    clamp01 ((rampup_score (some 1) (some 1) (some 1) (some 1) (some 1) 1).1) = 1 ∧
    clamp01 ((bus_factor_score (some 10) 1).1) = 1 ∧
    clamp01 ((dataset_and_code_score true true 1).1) = 1 ∧
    clamp01 ((dataset_quality_score (some 1) (some 1) (some 1) (some 1) 1).1) = 1 ∧
    clamp01 ((code_quality_score (some 0) true (some 0) 1).1) = 1 ∧
    clamp01 ((perf_claims_score true true 1).1) = 1 := by
  have hlic : (license_score (r"MIT") 1).1 = 1 := rfl
  have hramp : (rampup_score (some 1) (some 1) (some 1) (some 1) (some 1) 1).1 = 1 := by
    show _clamp ((1 + 1 + 1 + 1 + 1 : ℚ) / 5) = 1
    norm_num [_clamp, max_def, min_def]
  have hbus : (bus_factor_score (some 10) 1).1 = 1 := rfl
  have hdac : (dataset_and_code_score true true 1).1 = 1 := by
    show _clamp ((1/2 : ℚ) + 1/2) = 1
    norm_num [_clamp, max_def, min_def]
  have hdq : (dataset_quality_score (some 1) (some 1) (some 1) (some 1) 1).1 = 1 := by
    show _clamp ((1 + 1 + 1 + 1 : ℚ) / 4) = 1
    norm_num [_clamp, max_def, min_def]
  have hcq : (code_quality_score (some 0) true (some 0) 1).1 = 1 := by
    show _clamp 1 = 1
    norm_num [_clamp, max_def, min_def]
  have hpc : (perf_claims_score true true 1).1 = 1 := rfl
  have hone : clamp01 1 = 1 := clamp01_eq_self (by norm_num) (by norm_num)
  exact ⟨by rw [hlic, hone], by rw [hramp, hone], by rw [hbus, hone], by rw [hdac, hone],
    by rw [hdq, hone], by rw [hcq, hone], by rw [hpc, hone]⟩

lemma c2_net_value : (compute_all_scores c2_ctx unit_elapsed).net_score = 179/180 := by
  obtain ⟨hlic, hramp, hbus, hdac, hdq, hcq, hpc⟩ := c2_other_sub_scores
  rw [c2_net_key, c2_size_sub_score, hlic, hramp, hbus, hdac, hdq, hcq, hpc,
    weightOf_size, weightOf_license, weightOf_ramp, weightOf_bus, weightOf_dac,
    weightOf_dq, weightOf_cq, weightOf_pc]
  have : (8 : ℚ)/9 * (5/100) + 1 * (20/100) + 1 * (15/100) + 1 * (10/100) +
      1 * (20/100) + 1 * (5/100) + 1 * (15/100) + 1 * (10/100) = 179/180 := by norm_num
  rw [this]
  exact clamp01_eq_self (by norm_num) (by norm_num)

/-- C2 counterexample: on the spec's end-to-end context (50 MB, MIT, all
other signals maximal) the aggregator does not return net score 1.0 — the
size metric gives 8/9 at 50 MB, not 1.0. -/
theorem c2_net_score_not_one :
    (compute_all_scores c2_ctx unit_elapsed).net_score ≠ 1 := by
  rw [c2_net_value]
  norm_num

/-- C2 amended: on that context the net score is 179/180 (≈ 0.99444): the
size sub-score is 8/9 on the decay curve and the other seven sub-scores
are maximal. -/
theorem c2_net_score_value :
    (compute_all_scores c2_ctx unit_elapsed).net_score = 179/180 ∧
    clamp01 ((size_score (some 50000000) 1).1) = 8/9 ∧
    clamp01 ((license_score (r"MIT") 1).1) = 1 ∧
    clamp01 ((rampup_score (some 1) (some 1) (some 1) (some 1) (some 1) 1).1) = 1 ∧
    clamp01 ((bus_factor_score (some 10) 1).1) = 1 ∧
    clamp01 ((dataset_and_code_score true true 1).1) = 1 ∧
    clamp01 ((dataset_quality_score (some 1) (some 1) (some 1) (some 1) 1).1) = 1 ∧
    clamp01 ((code_quality_score (some 0) true (some 0) 1).1) = 1 ∧
    clamp01 ((perf_claims_score true true 1).1) = 1 := by
  obtain ⟨hlic, hramp, hbus, hdac, hdq, hcq, hpc⟩ := c2_other_sub_scores
  exact ⟨c2_net_value, c2_size_sub_score, hlic, hramp, hbus, hdac, hdq, hcq, hpc⟩

/-- C7: the reported net score latency is the maximum of the eight
per-metric latencies plus the measured wall-clock overhead of the whole
aggregation call (a parallel-cost model, not a sum), and the overhead
itself is floored at 1 ms. -/
theorem net_latency_parallel_model (ctx : Context) (t : Elapsed) :
    (compute_all_scores ctx t).net_score_latency =
      max (max (max (max (max (max (max
        (compute_all_scores ctx t).size_score_latency
        (compute_all_scores ctx t).license_latency)
        (compute_all_scores ctx t).ramp_up_time_latency)
        (compute_all_scores ctx t).bus_factor_latency)
        (compute_all_scores ctx t).dataset_and_code_score_latency)
        (compute_all_scores ctx t).dataset_quality_latency)
        (compute_all_scores ctx t).code_quality_latency)
        (compute_all_scores ctx t).performance_claims_latency + max 1 t.agg ∧
    1 ≤ max 1 t.agg :=
  ⟨rfl, le_max_left 1 t.agg⟩

/-- C8 counterexample: a batch containing a non-MODEL URL (a GitHub URL,
classified CODE) next to one successfully evaluated model URL exits with
status 0 — the exit policy filters DATASET/CODE classification failures
out before deciding the exit code, contradicting the claim that any
non-MODEL input forces a non-zero exit. -/
theorem exit_zero_despite_nonmodel_input :
    classify (r"https://github.com/foo/bar") ≠ Category.MODEL ∧
    main_exit [r"https://github.com/foo/bar", r"https://huggingface.co/org/model"]
      (fun _ => EvalOutcome.success) = 0 := by
  constructor
  · decide
  · rfl

/-- C8 amended: for a non-empty URL list the batch exits 0 iff at least one
URL classifies as MODEL and every MODEL URL evaluates successfully;
DATASET/CODE inputs are tolerated (they never force a non-zero exit on
their own), while any lookup or processing failure of a model URL forces
exit 1. -/
theorem main_exit_policy (urls : List String) (ev : String → EvalOutcome)
    (h : urls ≠ []) :
    main_exit urls ev = 0 ↔
      ((∃ u ∈ urls, classify u = Category.MODEL) ∧
       ∀ u ∈ urls, classify u = Category.MODEL → ev u = EvalOutcome.success) := by
  have hne : ¬ (urls.isEmpty = true) := by
    simpa [List.isEmpty_iff] using h
  unfold main_exit
  rw [if_neg hne]
  dsimp only
  by_cases hm : ∃ u ∈ urls, classify u = Category.MODEL
  · have hmne : urls.filter (fun u => decide (classify u = Category.MODEL)) ≠ [] := by
      obtain ⟨u, hu, hcu⟩ := hm
      intro hnil
      have hmem : u ∈ urls.filter (fun u => decide (classify u = Category.MODEL)) :=
        List.mem_filter.mpr ⟨hu, by simp [hcu]⟩
      rw [hnil] at hmem
      exact absurd hmem (List.not_mem_nil u)
    have hc1 : ((urls.filter (fun u => decide (classify u = Category.MODEL))).isEmpty &&
        !((urls.filter (fun u => decide (¬ classify u = Category.MODEL))).map
          (fun u => (u, classify u))).isEmpty) = false := by
      have : (urls.filter (fun u => decide (classify u = Category.MODEL))).isEmpty = false := by
        simpa [List.isEmpty_iff] using hmne
      simp [this]
    rw [hc1]
    have hae : (((urls.filter (fun u => decide (¬ classify u = Category.MODEL))).map
        (fun u => (u, classify u))).filter
        (fun p => decide (¬ (p.2 = Category.DATASET ∨ p.2 = Category.CODE)))) = [] := by
      rw [List.filter_eq_nil_iff]
      intro p hp
      simp only [List.mem_map, List.mem_filter, decide_eq_true_eq] at hp
      obtain ⟨u, ⟨hu, hcu⟩, rfl⟩ := hp
      simp only [decide_eq_true_eq, not_not]
      cases hcl : classify u with
      | MODEL => exact absurd hcl hcu
      | DATASET => exact Or.inl rfl
      | CODE => exact Or.inr rfl
    rw [hae]
    simp only [Bool.false_and, List.isEmpty_nil, Bool.not_true, Bool.false_or,
      Bool.if_false_left]
    constructor
    · intro h0
      refine ⟨hm, ?_⟩
      intro u hu hcu
      by_contra hev
      have hmemf : u ∈ (urls.filter (fun u => decide (classify u = Category.MODEL))).filter
          (fun u => decide (¬ ev u = EvalOutcome.success)) := by
        refine List.mem_filter.mpr ⟨List.mem_filter.mpr ⟨hu, by simp [hcu]⟩, by simp [hev]⟩
      have hfne : ((urls.filter (fun u => decide (classify u = Category.MODEL))).filter
          (fun u => decide (¬ ev u = EvalOutcome.success))).isEmpty = false := by
        rcases hx : (urls.filter (fun u => decide (classify u = Category.MODEL))).filter
            (fun u => decide (¬ ev u = EvalOutcome.success)) with _ | ⟨a, l⟩
        · rw [hx] at hmemf
          exact absurd hmemf (List.not_mem_nil u)
        · rfl
      rw [hfne] at h0
      simp at h0
    · rintro ⟨-, hall⟩
      have hf : (urls.filter (fun u => decide (classify u = Category.MODEL))).filter
          (fun u => decide (¬ ev u = EvalOutcome.success)) = [] := by
        rw [List.filter_eq_nil_iff]
        intro u hu
        simp only [List.mem_filter, decide_eq_true_eq] at hu
        simp only [decide_eq_true_eq, not_not]
        exact hall u hu.1 hu.2
      rw [hf]
      rfl
  · have hmnil : urls.filter (fun u => decide (classify u = Category.MODEL)) = [] := by
      rw [List.filter_eq_nil_iff]
      intro u hu
      simp only [decide_eq_true_eq]
      exact fun hc => hm ⟨u, hu, hc⟩
    have hinv : urls.filter (fun u => decide (¬ classify u = Category.MODEL)) = urls := by
      rw [List.filter_eq_self]
      intro u hu
      simp only [decide_eq_true_eq]
      exact fun hc => hm ⟨u, hu, hc⟩
    have hc1 : ((urls.filter (fun u => decide (classify u = Category.MODEL))).isEmpty &&
        !((urls.filter (fun u => decide (¬ classify u = Category.MODEL))).map
          (fun u => (u, classify u))).isEmpty) = true := by
      rw [hmnil, hinv]
      rcases urls with _ | ⟨a, l⟩
      · exact absurd rfl h
      · rfl
    rw [hc1]
    constructor
    · intro h0
      simp at h0
    · rintro ⟨hex, -⟩
      exact absurd hex hm

theorem main_exit_policy_witness :
    main_exit [r"https://huggingface.co/org/model"] (fun _ => EvalOutcome.success) = 0 :=
  (main_exit_policy [r"https://huggingface.co/org/model"] (fun _ => EvalOutcome.success)
      (by decide)).mpr
    ⟨⟨r"https://huggingface.co/org/model", by decide, by decide⟩,
     fun u hu hcu => rfl⟩

/-- C9 counterexample: with strict mode (LLM_STRICT) enabled and no provider
configured, the analyzer raises instead of falling back to the local
heuristic — it is not total over its boundary. -/
theorem analyze_raises_in_strict_mode :
    analyze_readme_with_llm (π := Unit) none false true (r"readme text") (r"model-A") =
      Except.error (r"LLM provider not configured and LLM_STRICT is enabled") := rfl

/-- C9 amended: with strict mode disabled the analyzer never raises: on any
internal failure — provider not configured, deterministic mode forbidding
remote calls, or the provider call raising — it returns exactly the
deterministic local heuristic analysis of the same README text, so repeated
runs on the same text yield identical results; with strict mode enabled
such failures propagate as errors. -/
theorem analyze_fallback_nonstrict {π : Type}
    (p : String → String → Except String π) (det : Bool)
    (readme_content model_name : String) :
    (analyze_readme_with_llm (π := π) none det false readme_content model_name =
      Except.ok (none, _analyze_readme_locally readme_content model_name)) ∧
    (analyze_readme_with_llm (some p) true false readme_content model_name =
      Except.ok (none, _analyze_readme_locally readme_content model_name)) ∧
    (∀ err, p model_name readme_content = Except.error err →
      analyze_readme_with_llm (some p) false false readme_content model_name =
        Except.ok (none, _analyze_readme_locally readme_content model_name)) := by
  refine ⟨?_, rfl, ?_⟩
  · cases det <;> rfl
  · intro err herr
    simp only [analyze_readme_with_llm, herr]
    rfl

theorem analyze_fallback_nonstrict_witness :
    analyze_readme_with_llm
        (some (fun _ _ => (Except.error (r"provider down") : Except String Unit)))
        false false (r"some readme") (r"model-A") =
      Except.ok (none, _analyze_readme_locally (r"some readme") (r"model-A")) :=
  (analyze_fallback_nonstrict (fun _ _ => (Except.error (r"provider down") : Except String Unit))
      false (r"some readme") (r"model-A")).2.2 (r"provider down") rfl
